import Mathlib

/-!
# Bank module adapter of the Cosmos chain test harness (`chain/cosmos/bank.go`)

A shallow embedding of the twelve bank query methods of `CosmosChain` and of the two
transaction-submitting methods of `ChainNode`.

* Go pointers are `Ptr α` (`none` is the nil pointer), Go slices are `Slice α`
  (`Slice.nil` is the nil slice), Go errors are `Option GoError` (`none` is the nil error).
* A Go call either returns its result tuple or panics: `Outcome`.
* The gRPC transport is an explicit state `Transport` that counts dial attempts, opened
  and closed connections and logs every effect in order.  The behaviour of the transport
  and of the remote query service is a parameter `Remote` (a stub).
* `defer grpcConn.Close()` is `withDeferredClose`: the close runs after the body, whether
  the body returned or panicked.
-/

namespace Cosmos

/-! ## Go values -/

/-- Go `error` value.  The nil error is `none : Option GoError`. -/
structure GoError where
  msg : String
  deriving DecidableEq, Repr

/-- Go pointer: `none` is the nil pointer. -/
abbrev Ptr (α : Type) := Option α

/-- Go slice: the nil slice is distinguished from an allocated slice. -/
inductive Slice (α : Type) where
  | nil : Slice α
  | mk (elems : List α) : Slice α
  deriving DecidableEq, Repr

/-- Elements of a slice in order; the nil slice has none. -/
def Slice.toList {α : Type} : Slice α → List α
  | .nil => []
  | .mk elems => elems

/-- Go `len`. -/
def Slice.len {α : Type} (s : Slice α) : Nat := s.toList.length

/-- Go `append(s, xs...)`: appending nothing to the nil slice leaves it nil. -/
def Slice.append {α : Type} (s : Slice α) (xs : List α) : Slice α :=
  match s, xs with
  | .nil, [] => .nil
  | s, xs => .mk (s.toList ++ xs)

/-- Go `context.Context`: an identity and whether it is already cancelled. -/
structure Context where
  id : Nat
  cancelled : Bool
  deriving DecidableEq, Repr

/-- Result of a Go call: it returns a value together with an error, or it panics
(run-time fault, here always a nil pointer dereference). -/
inductive Outcome (α : Type) where
  | returned (value : α) (err : Option GoError) : Outcome α
  | fault : Outcome α
  deriving DecidableEq, Repr

/-- Evaluating a field selector through a pointer: a nil pointer panics. -/
def Ptr.deref {α β : Type} (p : Ptr α) (k : α → Outcome β) : Outcome β :=
  match p with
  | none => .fault
  | some a => k a

/-! ## SDK types used by the adapter -/

/-- Base-10 text of an integer, as `big.Int.String` prints it. -/
def decimal (z : Int) : String :=
  if z < 0 then "-" ++ Nat.repr z.natAbs else Nat.repr z.toNat

/-- The `sdkmath.Int` wrapper around `*big.Int`.  The zero value `Int{}` holds a nil
pointer. -/
structure SdkInt where
  i : Ptr Int
  deriving DecidableEq, Repr

/-- The zero value `sdkmath.Int{}`. -/
def SdkInt.zeroValue : SdkInt := { i := none }

/-- The method `Int.String`: delegates to `big.Int.String`, which prints a nil receiver
as `<nil>`. -/
def SdkInt.String (a : SdkInt) : String :=
  match a.i with
  | none => "<nil>"
  | some z => decimal z

/-- The SDK message `types.Coin`. -/
structure Coin where
  Denom : String
  Amount : SdkInt
  deriving DecidableEq, Repr

/-- The SDK type `types.Coins`, a slice of coins. -/
abbrev Coins := Slice Coin

/-- The SDK message `banktypes.DenomUnit`. -/
structure DenomUnit where
  Denom : String
  Exponent : Nat
  Aliases : Slice String
  deriving DecidableEq, Repr

/-- The SDK message `banktypes.Metadata`. -/
structure Metadata where
  Description : String
  DenomUnits : Slice (Ptr DenomUnit)
  Base : String
  Display : String
  Name : String
  Symbol : String
  URI : String
  URIHash : String
  deriving DecidableEq, Repr

/-- The SDK message `banktypes.SendEnabled`. -/
structure SendEnabled where
  Denom : String
  Enabled : Bool
  deriving DecidableEq, Repr

/-- The SDK message `banktypes.Params`. -/
structure Params where
  SendEnabled : Slice (Ptr SendEnabled)
  DefaultSendEnabled : Bool
  deriving DecidableEq, Repr

/-- The SDK message `banktypes.DenomOwner`. -/
structure DenomOwner where
  Address : String
  Balance : Coin
  deriving DecidableEq, Repr

/-- The SDK message `query.PageRequest`. -/
structure PageRequest where
  Key : Slice Nat
  Offset : Nat
  Limit : Nat
  CountTotal : Bool
  Reverse : Bool
  deriving DecidableEq, Repr

/-- The SDK message `query.PageResponse`. -/
structure PageResponse where
  NextKey : Slice Nat
  Total : Nat
  deriving DecidableEq, Repr

/-- The harness type `ibc.WalletAmount`. -/
structure WalletAmount where
  Address : String
  Denom : String
  Amount : SdkInt
  deriving DecidableEq, Repr

/-! ## Request messages.  Fields omitted in a Go composite literal take their zero value,
which is what the field defaults below are. -/

/-- Request of `Query/Balance`: `Address string`, `Denom string`. -/
structure QueryBalanceRequest where
  Address : String := ""
  Denom : String := ""
  deriving DecidableEq, Repr

/-- Request of `Query/AllBalances`: `Address string`, `Pagination *query.PageRequest`,
`ResolveDenom bool`. -/
structure QueryAllBalancesRequest where
  Address : String := ""
  Pagination : Ptr PageRequest := none
  ResolveDenom : Bool := false
  deriving DecidableEq, Repr

/-- Request of `Query/DenomMetadata`: `Denom string`. -/
structure QueryDenomMetadataRequest where
  Denom : String := ""
  deriving DecidableEq, Repr

/-- Request of `Query/DenomMetadataByQueryString`: `Denom string`. -/
structure QueryDenomMetadataByQueryStringRequest where
  Denom : String := ""
  deriving DecidableEq, Repr

/-- Request of `Query/DenomOwners`: `Denom string`, `Pagination *query.PageRequest`. -/
structure QueryDenomOwnersRequest where
  Denom : String := ""
  Pagination : Ptr PageRequest := none
  deriving DecidableEq, Repr

/-- Request of `Query/DenomsMetadata`: `Pagination *query.PageRequest`. -/
structure QueryDenomsMetadataRequest where
  Pagination : Ptr PageRequest := none
  deriving DecidableEq, Repr

/-- Request of `Query/Params`: no fields. -/
structure QueryParamsRequest where
  deriving DecidableEq, Repr

/-- Request of `Query/SendEnabled`: `Denoms []string`, `Pagination *query.PageRequest`. -/
structure QuerySendEnabledRequest where
  Denoms : Slice String := Slice.nil
  Pagination : Ptr PageRequest := none
  deriving DecidableEq, Repr

/-- Request of `Query/SpendableBalanceByDenom`: `Address string`, `Denom string`. -/
structure QuerySpendableBalanceByDenomRequest where
  Address : String := ""
  Denom : String := ""
  deriving DecidableEq, Repr

/-- Request of `Query/SpendableBalances`: `Address string`,
`Pagination *query.PageRequest`. -/
structure QuerySpendableBalancesRequest where
  Address : String := ""
  Pagination : Ptr PageRequest := none
  deriving DecidableEq, Repr

/-- Request of `Query/TotalSupply`: `Pagination *query.PageRequest`. -/
structure QueryTotalSupplyRequest where
  Pagination : Ptr PageRequest := none
  deriving DecidableEq, Repr

/-- Request of `Query/SupplyOf`: `Denom string`. -/
structure QuerySupplyOfRequest where
  Denom : String := ""
  deriving DecidableEq, Repr

/-! ## Response messages -/

/-- Response of `Query/Balance`: `Balance *types.Coin`, a pointer, which the source selects
through in `res.Balance.Amount`. -/
structure QueryBalanceResponse where
  Balance : Ptr Coin
  deriving DecidableEq, Repr

/-- Response of `Query/AllBalances`: `Balances types.Coins`,
`Pagination *query.PageResponse`. -/
structure QueryAllBalancesResponse where
  Balances : Coins
  Pagination : Ptr PageResponse
  deriving DecidableEq, Repr

/-- Response of `Query/DenomMetadata`: `Metadata Metadata`, a value, of which the source
takes the address. -/
structure QueryDenomMetadataResponse where
  Metadata : Metadata
  deriving DecidableEq, Repr

/-- Response of `Query/DenomMetadataByQueryString`: `Metadata Metadata`, a value. -/
structure QueryDenomMetadataByQueryStringResponse where
  Metadata : Metadata
  deriving DecidableEq, Repr

/-- Response of `Query/DenomOwners`: `DenomOwners []*DenomOwner`,
`Pagination *query.PageResponse`. -/
structure QueryDenomOwnersResponse where
  DenomOwners : Slice (Ptr DenomOwner)
  Pagination : Ptr PageResponse
  deriving DecidableEq, Repr

/-- Response of `Query/DenomsMetadata`: `Metadatas []Metadata`,
`Pagination *query.PageResponse`. -/
structure QueryDenomsMetadataResponse where
  Metadatas : Slice Metadata
  Pagination : Ptr PageResponse
  deriving DecidableEq, Repr

/-- Response of `Query/Params`: `Params Params`, a value. -/
structure QueryParamsResponse where
  Params : Params
  deriving DecidableEq, Repr

/-- Response of `Query/SendEnabled`: `SendEnabled []*SendEnabled`,
`Pagination *query.PageResponse`. -/
structure QuerySendEnabledResponse where
  SendEnabled : Slice (Ptr SendEnabled)
  Pagination : Ptr PageResponse
  deriving DecidableEq, Repr

/-- Response of `Query/SpendableBalanceByDenom`: `Balance *types.Coin`, the pointer the
source returns as it is. -/
structure QuerySpendableBalanceByDenomResponse where
  Balance : Ptr Coin
  deriving DecidableEq, Repr

/-- Response of `Query/SpendableBalances`: `Balances types.Coins`,
`Pagination *query.PageResponse`. -/
structure QuerySpendableBalancesResponse where
  Balances : Coins
  Pagination : Ptr PageResponse
  deriving DecidableEq, Repr

/-- Response of `Query/TotalSupply`: `Supply types.Coins`,
`Pagination *query.PageResponse`. -/
structure QueryTotalSupplyResponse where
  Supply : Coins
  Pagination : Ptr PageResponse
  deriving DecidableEq, Repr

/-- Response of `Query/SupplyOf`: `Amount types.Coin`, a value. -/
structure QuerySupplyOfResponse where
  Amount : Coin
  deriving DecidableEq, Repr

/-- The generated getter `(*QueryAllBalancesResponse).GetBalances` of the SDK:
`if m != nil { return m.Balances }; return nil`. -/
def QueryAllBalancesResponse.GetBalances (m : Ptr QueryAllBalancesResponse) : Coins :=
  match m with
  | some r => r.Balances
  | none => Slice.nil

/-! ## The gRPC transport, as an explicit state -/

/-- One remote procedure of the bank query service together with the context and the
request handed to it. -/
inductive RemoteCall where
  | Balance (ctx : Context) (req : QueryBalanceRequest)
  | AllBalances (ctx : Context) (req : QueryAllBalancesRequest)
  | DenomMetadata (ctx : Context) (req : QueryDenomMetadataRequest)
  | DenomMetadataByQueryString (ctx : Context) (req : QueryDenomMetadataByQueryStringRequest)
  | DenomOwners (ctx : Context) (req : QueryDenomOwnersRequest)
  | DenomsMetadata (ctx : Context) (req : QueryDenomsMetadataRequest)
  | Params (ctx : Context) (req : QueryParamsRequest)
  | SendEnabled (ctx : Context) (req : QuerySendEnabledRequest)
  | SpendableBalanceByDenom (ctx : Context) (req : QuerySpendableBalanceByDenomRequest)
  | SpendableBalances (ctx : Context) (req : QuerySpendableBalancesRequest)
  | TotalSupply (ctx : Context) (req : QueryTotalSupplyRequest)
  | SupplyOf (ctx : Context) (req : QuerySupplyOfRequest)
  deriving DecidableEq, Repr

/-- Effects observable on the transport, in the order they happen. -/
inductive Event where
  | dial (target : String) (ok : Bool)
  | invoke (conn : Nat) (call : RemoteCall)
  | close (conn : Nat)
  deriving DecidableEq, Repr

/-- State of the (fake) transport: number of dial attempts, of connections opened, of
connections closed, and the log of all effects. -/
structure Transport where
  dials : Nat
  opens : Nat
  closes : Nat
  log : List Event
  deriving DecidableEq, Repr

/-- Transport on which nothing has happened yet. -/
def Transport.fresh : Transport := { dials := 0, opens := 0, closes := 0, log := [] }

/-- How often connection `conn` is closed in a log. -/
def closeCount (conn : Nat) (log : List Event) : Nat :=
  log.count (Event.close conn)

/-- The remote calls of a log, in order. -/
def remoteCalls : List Event → List RemoteCall
  | [] => []
  | .invoke _ call :: rest => call :: remoteCalls rest
  | _ :: rest => remoteCalls rest

/-- Result pair of a generated client method: response pointer and error. -/
abbrev Reply (α : Type) := Ptr α × Option GoError

/-- Behaviour of the transport and of the remote bank query service (a stub): whether
dialing a target fails, and what each remote procedure answers to a context and a
request. -/
structure Remote where
  dial : String → Option GoError
  Balance : Context → QueryBalanceRequest → Reply QueryBalanceResponse
  AllBalances : Context → QueryAllBalancesRequest → Reply QueryAllBalancesResponse
  DenomMetadata : Context → QueryDenomMetadataRequest → Reply QueryDenomMetadataResponse
  DenomMetadataByQueryString :
    Context → QueryDenomMetadataByQueryStringRequest →
      Reply QueryDenomMetadataByQueryStringResponse
  DenomOwners : Context → QueryDenomOwnersRequest → Reply QueryDenomOwnersResponse
  DenomsMetadata : Context → QueryDenomsMetadataRequest → Reply QueryDenomsMetadataResponse
  Params : Context → QueryParamsRequest → Reply QueryParamsResponse
  SendEnabled : Context → QuerySendEnabledRequest → Reply QuerySendEnabledResponse
  SpendableBalanceByDenom :
    Context → QuerySpendableBalanceByDenomRequest → Reply QuerySpendableBalanceByDenomResponse
  SpendableBalances :
    Context → QuerySpendableBalancesRequest → Reply QuerySpendableBalancesResponse
  TotalSupply : Context → QueryTotalSupplyRequest → Reply QueryTotalSupplyResponse
  SupplyOf : Context → QuerySupplyOfRequest → Reply QuerySupplyOfResponse

/-- The handle `*grpc.ClientConn`: the number of the connection and its target. -/
structure ClientConn where
  id : Nat
  target : String
  deriving DecidableEq, Repr

/-- The call `grpc.Dial(target, grpc.WithTransportCredentials(insecure.NewCredentials()))`:
one dial attempt; on success a new connection is open. -/
def grpcDial (env : Remote) (target : String) (t : Transport) :
    Except GoError ClientConn × Transport :=
  match env.dial target with
  | some err =>
    (.error err, { t with dials := t.dials + 1, log := t.log ++ [Event.dial target false] })
  | none =>
    (.ok { id := t.opens, target := target },
     { t with dials := t.dials + 1, opens := t.opens + 1,
              log := t.log ++ [Event.dial target true] })

/-- The method `grpcConn.Close()`; its result is dropped by the callers. -/
def ClientConn.Close (conn : ClientConn) (t : Transport) : Transport :=
  { t with closes := t.closes + 1, log := t.log ++ [Event.close conn.id] }

/-- The statement `defer grpcConn.Close()` followed by the rest of the function body:
the close runs when the body has returned and also when it has panicked. -/
def withDeferredClose {α : Type} (conn : ClientConn)
    (body : Transport → Outcome α × Transport) (t : Transport) : Outcome α × Transport :=
  let r := body t
  (r.1, conn.Close r.2)

/-- A remote procedure invoked through `banktypes.NewQueryClient(grpcConn)`: the call is
logged on the transport and the stub's reply comes back. -/
def invoke {α : Type} (conn : ClientConn) (call : RemoteCall) (reply : Reply α)
    (t : Transport) : Reply α × Transport :=
  (reply, { t with log := t.log ++ [Event.invoke conn.id call] })

/-! ## The chain and its node -/

/-- The part of `ChainNode` the adapter reads: the host address of the node's gRPC
port. -/
structure ChainNode where
  hostGRPCPort : String
  deriving DecidableEq, Repr

/-- The part of `CosmosChain` the adapter reads.  `GetNode` is defined outside this file of
the repository; it is taken as given: the node it yields. -/
structure CosmosChain where
  GetNode : ChainNode
  deriving DecidableEq, Repr

/-- One call of `ChainNode.ExecTx`. -/
structure ExecCall where
  ctx : Context
  keyName : String
  command : List String
  deriving DecidableEq, Repr

/-- Behaviour of `ChainNode.ExecTx`, which is defined outside this file of the repository
and taken as given: transaction hash and error for a node, context, signer and command. -/
abbrev ExecStub := ChainNode → Context → String → List String → String × Option GoError

/-- The method `tn.ExecTx(ctx, keyName, command...)`: the call is logged and the stub
answers. -/
def ChainNode.ExecTx (exec : ExecStub) (tn : ChainNode) (ctx : Context) (keyName : String)
    (command : List String) (calls : List ExecCall) :
    (String × Option GoError) × List ExecCall :=
  (exec tn ctx keyName command,
   calls ++ [{ ctx := ctx, keyName := keyName, command := command }])

/-! ## Transaction submission -/

/-- BankSend sends tokens from one account to another. -/
def ChainNode.BankSend (exec : ExecStub) (tn : ChainNode) (ctx : Context) (keyName : String)
    (amount : WalletAmount) (calls : List ExecCall) : Option GoError × List ExecCall :=
  let r := tn.ExecTx exec ctx keyName
    ["bank", "send", keyName, amount.Address, amount.Amount.String ++ amount.Denom] calls
  (r.1.2, r.2)

/-- BankMultiSend sends an amount of token from one account to multiple accounts. -/
def ChainNode.BankMultiSend (exec : ExecStub) (tn : ChainNode) (ctx : Context)
    (keyName : String) (addresses : Slice String) (amount : SdkInt) (denom : String)
    (calls : List ExecCall) : Option GoError × List ExecCall :=
  let cmd := (Slice.mk ["bank", "multi-send", keyName]).append addresses.toList
  let cmd := cmd.append [amount.String ++ denom]
  let r := tn.ExecTx exec ctx keyName cmd.toList calls
  (r.1.2, r.2)

/-! ## The bank queries

Every query dials the node's gRPC port, returns at once when the dial fails, defers the
close of the connection, invokes one remote procedure and selects a field of the
response without looking at the error first. -/

/-- GetBalance fetches the current balance for a specific account address and denom:
`return res.Balance.Amount, err` selects through `res` and through the pointer
`res.Balance`. -/
def CosmosChain.GetBalance (c : CosmosChain) (env : Remote)
    (ctx : Context) (address : String) (denom : String)
    (t : Transport) : Outcome SdkInt × Transport :=
  match grpcDial env c.GetNode.hostGRPCPort t with
  | (.error err, t1) => (.returned SdkInt.zeroValue (some err), t1)
  | (.ok grpcConn, t1) =>
    withDeferredClose grpcConn (fun t2 =>
      let req : QueryBalanceRequest := { Address := address, Denom := denom }
      let r := invoke grpcConn (.Balance ctx req) (env.Balance ctx req) t2
      (Ptr.deref r.1.1 fun res =>
        Ptr.deref res.Balance fun balance => .returned balance.Amount r.1.2, r.2)) t1

/-- BankGetBalance is an alias for GetBalance. -/
def CosmosChain.BankGetBalance (c : CosmosChain) (env : Remote) (ctx : Context)
    (address : String) (denom : String) (t : Transport) : Outcome SdkInt × Transport :=
  c.GetBalance env ctx address denom t

/-- AllBalances fetches an account address's balance for all denoms it holds:
`return res.GetBalances(), err` goes through the nil-guarded getter. -/
def CosmosChain.BankAllBalances (c : CosmosChain) (env : Remote) (ctx : Context) (address : String)
    (t : Transport) : Outcome Coins × Transport :=
  match grpcDial env c.GetNode.hostGRPCPort t with
  | (.error err, t1) => (.returned Slice.nil (some err), t1)
  | (.ok grpcConn, t1) =>
    withDeferredClose grpcConn (fun t2 =>
      let req : QueryAllBalancesRequest := { Address := address }
      let r := invoke grpcConn (.AllBalances ctx req) (env.AllBalances ctx req) t2
      (.returned (QueryAllBalancesResponse.GetBalances r.1.1) r.1.2, r.2)) t1

/-- BankDenomMetadata fetches the metadata of a specific coin denomination:
`return &res.Metadata, err`. -/
def CosmosChain.BankDenomMetadata (c : CosmosChain) (env : Remote) (ctx : Context) (denom : String)
    (t : Transport) : Outcome (Ptr Metadata) × Transport :=
  match grpcDial env c.GetNode.hostGRPCPort t with
  | (.error err, t1) => (.returned none (some err), t1)
  | (.ok grpcConn, t1) =>
    withDeferredClose grpcConn (fun t2 =>
      let req : QueryDenomMetadataRequest := { Denom := denom }
      let r := invoke grpcConn (.DenomMetadata ctx req) (env.DenomMetadata ctx req) t2
      (Ptr.deref r.1.1 fun res => .returned (some res.Metadata) r.1.2, r.2)) t1

/-- The method `BankQueryDenomMetadataByQueryString`: `return &res.Metadata, err`. -/
def CosmosChain.BankQueryDenomMetadataByQueryString (c : CosmosChain) (env : Remote)
    (ctx : Context) (denom : String)
    (t : Transport) : Outcome (Ptr Metadata) × Transport :=
  match grpcDial env c.GetNode.hostGRPCPort t with
  | (.error err, t1) => (.returned none (some err), t1)
  | (.ok grpcConn, t1) =>
    withDeferredClose grpcConn (fun t2 =>
      let req : QueryDenomMetadataByQueryStringRequest := { Denom := denom }
      let r := invoke grpcConn (.DenomMetadataByQueryString ctx req)
        (env.DenomMetadataByQueryString ctx req) t2
      (Ptr.deref r.1.1 fun res => .returned (some res.Metadata) r.1.2, r.2)) t1

/-- The method `BankQueryDenomOwners`: `return res.DenomOwners, err`. -/
def CosmosChain.BankQueryDenomOwners (c : CosmosChain) (env : Remote)
    (ctx : Context) (denom : String)
    (t : Transport) : Outcome (Slice (Ptr DenomOwner)) × Transport :=
  match grpcDial env c.GetNode.hostGRPCPort t with
  | (.error err, t1) => (.returned Slice.nil (some err), t1)
  | (.ok grpcConn, t1) =>
    withDeferredClose grpcConn (fun t2 =>
      let req : QueryDenomOwnersRequest := { Denom := denom }
      let r := invoke grpcConn (.DenomOwners ctx req) (env.DenomOwners ctx req) t2
      (Ptr.deref r.1.1 fun res => .returned res.DenomOwners r.1.2, r.2)) t1

/-- The method `BankQueryDenomsMetadata`: `return res.Metadatas, err`. -/
def CosmosChain.BankQueryDenomsMetadata (c : CosmosChain) (env : Remote) (ctx : Context)
    (t : Transport) : Outcome (Slice Metadata) × Transport :=
  match grpcDial env c.GetNode.hostGRPCPort t with
  | (.error err, t1) => (.returned Slice.nil (some err), t1)
  | (.ok grpcConn, t1) =>
    withDeferredClose grpcConn (fun t2 =>
      let req : QueryDenomsMetadataRequest := {}
      let r := invoke grpcConn (.DenomsMetadata ctx req) (env.DenomsMetadata ctx req) t2
      (Ptr.deref r.1.1 fun res => .returned res.Metadatas r.1.2, r.2)) t1

/-- The method `BankQueryParams`: `return &res.Params, err`. -/
def CosmosChain.BankQueryParams (c : CosmosChain) (env : Remote) (ctx : Context)
    (t : Transport) : Outcome (Ptr Params) × Transport :=
  match grpcDial env c.GetNode.hostGRPCPort t with
  | (.error err, t1) => (.returned none (some err), t1)
  | (.ok grpcConn, t1) =>
    withDeferredClose grpcConn (fun t2 =>
      let req : QueryParamsRequest := {}
      let r := invoke grpcConn (.Params ctx req) (env.Params ctx req) t2
      (Ptr.deref r.1.1 fun res => .returned (some res.Params) r.1.2, r.2)) t1

/-- The method `BankQuerySendEnabled`: `return res.SendEnabled, err`. -/
def CosmosChain.BankQuerySendEnabled (c : CosmosChain) (env : Remote)
    (ctx : Context) (denoms : Slice String)
    (t : Transport) : Outcome (Slice (Ptr SendEnabled)) × Transport :=
  match grpcDial env c.GetNode.hostGRPCPort t with
  | (.error err, t1) => (.returned Slice.nil (some err), t1)
  | (.ok grpcConn, t1) =>
    withDeferredClose grpcConn (fun t2 =>
      let req : QuerySendEnabledRequest := { Denoms := denoms }
      let r := invoke grpcConn (.SendEnabled ctx req) (env.SendEnabled ctx req) t2
      (Ptr.deref r.1.1 fun res => .returned res.SendEnabled r.1.2, r.2)) t1

/-- The method `BankQuerySpendableBalance`: `return res.Balance, err`, the pointer itself. -/
def CosmosChain.BankQuerySpendableBalance (c : CosmosChain) (env : Remote)
    (ctx : Context) (address denom : String)
    (t : Transport) : Outcome (Ptr Coin) × Transport :=
  match grpcDial env c.GetNode.hostGRPCPort t with
  | (.error err, t1) => (.returned none (some err), t1)
  | (.ok grpcConn, t1) =>
    withDeferredClose grpcConn (fun t2 =>
      let req : QuerySpendableBalanceByDenomRequest := { Address := address, Denom := denom }
      let r := invoke grpcConn (.SpendableBalanceByDenom ctx req)
        (env.SpendableBalanceByDenom ctx req) t2
      (Ptr.deref r.1.1 fun res => .returned res.Balance r.1.2, r.2)) t1

/-- The method `BankQuerySpendableBalances`: `return &res.Balances, err`. -/
def CosmosChain.BankQuerySpendableBalances (c : CosmosChain) (env : Remote)
    (ctx : Context) (address : String)
    (t : Transport) : Outcome (Ptr Coins) × Transport :=
  match grpcDial env c.GetNode.hostGRPCPort t with
  | (.error err, t1) => (.returned none (some err), t1)
  | (.ok grpcConn, t1) =>
    withDeferredClose grpcConn (fun t2 =>
      let req : QuerySpendableBalancesRequest := { Address := address }
      let r := invoke grpcConn (.SpendableBalances ctx req) (env.SpendableBalances ctx req) t2
      (Ptr.deref r.1.1 fun res => .returned (some res.Balances) r.1.2, r.2)) t1

/-- The method `BankQueryTotalSupply`: the request literal is empty, the `address`
parameter is not read; `return &res.Supply, err`. -/
def CosmosChain.BankQueryTotalSupply (c : CosmosChain) (env : Remote)
    (ctx : Context) (_address : String)
    (t : Transport) : Outcome (Ptr Coins) × Transport :=
  match grpcDial env c.GetNode.hostGRPCPort t with
  | (.error err, t1) => (.returned none (some err), t1)
  | (.ok grpcConn, t1) =>
    withDeferredClose grpcConn (fun t2 =>
      let req : QueryTotalSupplyRequest := {}
      let r := invoke grpcConn (.TotalSupply ctx req) (env.TotalSupply ctx req) t2
      (Ptr.deref r.1.1 fun res => .returned (some res.Supply) r.1.2, r.2)) t1

/-- The method `BankQueryTotalSupplyOf`: its string parameter, named `address`, is sent as
the `Denom` of the request; `return &res.Amount, err`. -/
def CosmosChain.BankQueryTotalSupplyOf (c : CosmosChain) (env : Remote)
    (ctx : Context) (address : String)
    (t : Transport) : Outcome (Ptr Coin) × Transport :=
  match grpcDial env c.GetNode.hostGRPCPort t with
  | (.error err, t1) => (.returned none (some err), t1)
  | (.ok grpcConn, t1) =>
    withDeferredClose grpcConn (fun t2 =>
      let req : QuerySupplyOfRequest := { Denom := address }
      let r := invoke grpcConn (.SupplyOf ctx req) (env.SupplyOf ctx req) t2
      (Ptr.deref r.1.1 fun res => .returned (some res.Amount) r.1.2, r.2)) t1

/-! ## Stubs and sample values used to instantiate the theorems -/

/-- A node listening on a local gRPC port. -/
def sampleChain : CosmosChain := { GetNode := { hostGRPCPort := "localhost:9090" } }

/-- A live context. -/
def sampleCtx : Context := { id := 1, cancelled := false }

/-- The coin `1000uatom`. -/
def coin1000 : Coin := { Denom := "uatom", Amount := { i := some 1000 } }

/-- Metadata of `uatom`. -/
def sampleMetadata : Metadata :=
  { Description := "staking token", DenomUnits := Slice.mk [some ⟨"uatom", 0, Slice.nil⟩],
    Base := "uatom", Display := "atom", Name := "Atom", Symbol := "ATOM", URI := "",
    URIHash := "" }

/-- The remote error of an unknown account. -/
def notFound : GoError := { msg := "not found" }

/-- The error of an unreachable endpoint. -/
def unreachable : GoError := { msg := "connection refused" }

/-- Stub service: dialing answers `dialErr`; every remote procedure answers a nil
response together with the error `e`. -/
def Remote.failing (dialErr : Option GoError) (e : GoError) : Remote :=
  { dial := fun _ => dialErr
    Balance := fun _ _ => (none, some e)
    AllBalances := fun _ _ => (none, some e)
    DenomMetadata := fun _ _ => (none, some e)
    DenomMetadataByQueryString := fun _ _ => (none, some e)
    DenomOwners := fun _ _ => (none, some e)
    DenomsMetadata := fun _ _ => (none, some e)
    Params := fun _ _ => (none, some e)
    SendEnabled := fun _ _ => (none, some e)
    SpendableBalanceByDenom := fun _ _ => (none, some e)
    SpendableBalances := fun _ _ => (none, some e)
    TotalSupply := fun _ _ => (none, some e)
    SupplyOf := fun _ _ => (none, some e) }

/-- Stub service: dialing succeeds and every remote procedure answers a response and a
nil error; the balance reported is `1000uatom`. -/
def Remote.serving : Remote :=
  { dial := fun _ => none
    Balance := fun _ _ => (some { Balance := some coin1000 }, none)
    AllBalances := fun _ _ => (some { Balances := Slice.mk [coin1000], Pagination := none }, none)
    DenomMetadata := fun _ _ => (some { Metadata := sampleMetadata }, none)
    DenomMetadataByQueryString := fun _ _ => (some { Metadata := sampleMetadata }, none)
    DenomOwners := fun _ _ =>
      (some { DenomOwners := Slice.mk [some ⟨"addr1", coin1000⟩], Pagination := none }, none)
    DenomsMetadata := fun _ _ =>
      (some { Metadatas := Slice.mk [sampleMetadata], Pagination := none }, none)
    Params := fun _ _ =>
      (some { Params := { SendEnabled := Slice.nil, DefaultSendEnabled := true } }, none)
    SendEnabled := fun _ _ =>
      (some { SendEnabled := Slice.mk [some ⟨"uatom", true⟩], Pagination := none }, none)
    SpendableBalanceByDenom := fun _ _ => (some { Balance := some coin1000 }, none)
    SpendableBalances := fun _ _ =>
      (some { Balances := Slice.mk [coin1000], Pagination := none }, none)
    TotalSupply := fun _ _ => (some { Supply := Slice.mk [coin1000], Pagination := none }, none)
    SupplyOf := fun _ _ => (some { Amount := coin1000 }, none) }

/-- Stub service: dialing succeeds and `Balance` answers a response whose `Balance`
pointer is not set, with a nil error; the other procedures answer as `Remote.serving`. -/
def Remote.unsetBalance : Remote :=
  { Remote.serving with Balance := fun _ _ => (some { Balance := none }, none) }

/-! ## Properties of the transport used in the statements -/

/-- Between `t` and `t2` one connection was opened and that connection was closed
exactly once, the close being the last effect. -/
def ReleasedOnce (t t2 : Transport) : Prop :=
  t2.opens = t.opens + 1 ∧ t2.closes = t.closes + 1 ∧
  closeCount t.opens t2.log = closeCount t.opens t.log + 1 ∧
  t2.log.getLast? = some (Event.close t.opens)

/-- Between `t` and `t2` the only effect was one failed dial of `target`: no connection
was opened or closed and no remote procedure was called. -/
def OnlyFailedDial (target : String) (t t2 : Transport) : Prop :=
  t2.dials = t.dials + 1 ∧ t2.opens = t.opens ∧ t2.closes = t.closes ∧
  t2.log = t.log ++ [Event.dial target false]


/-! ## Auxiliary facts -/

theorem remoteCalls_append (l1 l2 : List Event) :
    remoteCalls (l1 ++ l2) = remoteCalls l1 ++ remoteCalls l2 := by
  induction l1 with
  | nil => rfl
  | cons ev rest ih => cases ev <;> simp [remoteCalls, ih]

/-! ## Connection lifecycle -/

/-- C1: for each of the twelve bank queries and every behaviour of the remote service
(success, remote or cancellation error, nil response or unset field that makes the read
of the response panic), when the dial succeeds the connection it opened is closed
exactly once, as the last effect of the call: one more open and one more close than
before, so `opens = closes = 1` from a fresh transport. -/
theorem connection_released_exactly_once (c : CosmosChain) (env : Remote) (ctx : Context)
    (address denom : String) (denoms : Slice String) (t : Transport)
    (hdial : env.dial c.GetNode.hostGRPCPort = none) :
    ReleasedOnce t (c.GetBalance env ctx address denom t).2 ∧
    ReleasedOnce t (c.BankAllBalances env ctx address t).2 ∧
    ReleasedOnce t (c.BankDenomMetadata env ctx denom t).2 ∧
    ReleasedOnce t (c.BankQueryDenomMetadataByQueryString env ctx denom t).2 ∧
    ReleasedOnce t (c.BankQueryDenomOwners env ctx denom t).2 ∧
    ReleasedOnce t (c.BankQueryDenomsMetadata env ctx t).2 ∧
    ReleasedOnce t (c.BankQueryParams env ctx t).2 ∧
    ReleasedOnce t (c.BankQuerySendEnabled env ctx denoms t).2 ∧
    ReleasedOnce t (c.BankQuerySpendableBalance env ctx address denom t).2 ∧
    ReleasedOnce t (c.BankQuerySpendableBalances env ctx address t).2 ∧
    ReleasedOnce t (c.BankQueryTotalSupply env ctx address t).2 ∧
    ReleasedOnce t (c.BankQueryTotalSupplyOf env ctx denom t).2 := by
  simp [ReleasedOnce, closeCount, CosmosChain.GetBalance, CosmosChain.BankAllBalances,
    CosmosChain.BankDenomMetadata, CosmosChain.BankQueryDenomMetadataByQueryString,
    CosmosChain.BankQueryDenomOwners, CosmosChain.BankQueryDenomsMetadata,
    CosmosChain.BankQueryParams, CosmosChain.BankQuerySendEnabled,
    CosmosChain.BankQuerySpendableBalance, CosmosChain.BankQuerySpendableBalances,
    CosmosChain.BankQueryTotalSupply, CosmosChain.BankQueryTotalSupplyOf,
    grpcDial, hdial, withDeferredClose, invoke, ClientConn.Close]

/-- Instance of C1 on a fresh transport: against a stub whose remote calls all fail with
a nil response (so that `GetBalance` panics) and against a stub whose calls all succeed,
the transport ends with one connection opened and one closed. -/
theorem connection_released_exactly_once_witness :
    (Remote.failing none notFound).dial sampleChain.GetNode.hostGRPCPort = none ∧
    (sampleChain.GetBalance (Remote.failing none notFound) sampleCtx "addr1" "uatom"
      Transport.fresh).1 = Outcome.fault ∧
    (sampleChain.GetBalance (Remote.failing none notFound) sampleCtx "addr1" "uatom"
      Transport.fresh).2.opens = 1 ∧
    (sampleChain.GetBalance (Remote.failing none notFound) sampleCtx "addr1" "uatom"
      Transport.fresh).2.closes = 1 ∧
    ReleasedOnce Transport.fresh
      (sampleChain.BankDenomMetadata Remote.serving sampleCtx "uatom" Transport.fresh).2 :=
  ⟨rfl, rfl,
   (connection_released_exactly_once sampleChain (Remote.failing none notFound) sampleCtx
      "addr1" "uatom" Slice.nil Transport.fresh rfl).1.1,
   (connection_released_exactly_once sampleChain (Remote.failing none notFound) sampleCtx
      "addr1" "uatom" Slice.nil Transport.fresh rfl).1.2.1,
   (connection_released_exactly_once sampleChain Remote.serving sampleCtx
      "addr1" "uatom" Slice.nil Transport.fresh rfl).2.2.1⟩

/-! ## Dial failure -/

/-- C4: for each of the twelve bank queries, when the dial of the node's gRPC port fails
with error `e` the query returns the zero payload (the zero value of `Int` for
`GetBalance`, nil otherwise) and exactly `e`, and its only transport effect is that one
failed dial: a single dial attempt, no remote call, no connection opened or closed. -/
theorem dial_failure_returns_immediately (c : CosmosChain) (env : Remote) (ctx : Context)
    (address denom : String) (denoms : Slice String) (t : Transport) (e : GoError)
    (hdial : env.dial c.GetNode.hostGRPCPort = some e) :
    ((c.GetBalance env ctx address denom t).1 = .returned SdkInt.zeroValue (some e) ∧
      OnlyFailedDial c.GetNode.hostGRPCPort t (c.GetBalance env ctx address denom t).2) ∧
    ((c.BankAllBalances env ctx address t).1 = .returned Slice.nil (some e) ∧
      OnlyFailedDial c.GetNode.hostGRPCPort t (c.BankAllBalances env ctx address t).2) ∧
    ((c.BankDenomMetadata env ctx denom t).1 = .returned none (some e) ∧
      OnlyFailedDial c.GetNode.hostGRPCPort t (c.BankDenomMetadata env ctx denom t).2) ∧
    ((c.BankQueryDenomMetadataByQueryString env ctx denom t).1 = .returned none (some e) ∧
      OnlyFailedDial c.GetNode.hostGRPCPort t
        (c.BankQueryDenomMetadataByQueryString env ctx denom t).2) ∧
    ((c.BankQueryDenomOwners env ctx denom t).1 = .returned Slice.nil (some e) ∧
      OnlyFailedDial c.GetNode.hostGRPCPort t (c.BankQueryDenomOwners env ctx denom t).2) ∧
    ((c.BankQueryDenomsMetadata env ctx t).1 = .returned Slice.nil (some e) ∧
      OnlyFailedDial c.GetNode.hostGRPCPort t (c.BankQueryDenomsMetadata env ctx t).2) ∧
    ((c.BankQueryParams env ctx t).1 = .returned none (some e) ∧
      OnlyFailedDial c.GetNode.hostGRPCPort t (c.BankQueryParams env ctx t).2) ∧
    ((c.BankQuerySendEnabled env ctx denoms t).1 = .returned Slice.nil (some e) ∧
      OnlyFailedDial c.GetNode.hostGRPCPort t (c.BankQuerySendEnabled env ctx denoms t).2) ∧
    ((c.BankQuerySpendableBalance env ctx address denom t).1 = .returned none (some e) ∧
      OnlyFailedDial c.GetNode.hostGRPCPort t
        (c.BankQuerySpendableBalance env ctx address denom t).2) ∧
    ((c.BankQuerySpendableBalances env ctx address t).1 = .returned none (some e) ∧
      OnlyFailedDial c.GetNode.hostGRPCPort t
        (c.BankQuerySpendableBalances env ctx address t).2) ∧
    ((c.BankQueryTotalSupply env ctx address t).1 = .returned none (some e) ∧
      OnlyFailedDial c.GetNode.hostGRPCPort t (c.BankQueryTotalSupply env ctx address t).2) ∧
    ((c.BankQueryTotalSupplyOf env ctx denom t).1 = .returned none (some e) ∧
      OnlyFailedDial c.GetNode.hostGRPCPort t (c.BankQueryTotalSupplyOf env ctx denom t).2) := by
  simp [OnlyFailedDial, CosmosChain.GetBalance, CosmosChain.BankAllBalances,
    CosmosChain.BankDenomMetadata, CosmosChain.BankQueryDenomMetadataByQueryString,
    CosmosChain.BankQueryDenomOwners, CosmosChain.BankQueryDenomsMetadata,
    CosmosChain.BankQueryParams, CosmosChain.BankQuerySendEnabled,
    CosmosChain.BankQuerySpendableBalance, CosmosChain.BankQuerySpendableBalances,
    CosmosChain.BankQueryTotalSupply, CosmosChain.BankQueryTotalSupplyOf,
    grpcDial, hdial]

/-- Instance of C4: against an unreachable endpoint `GetBalance` returns the zero value
of `Int` and the dial error, and `BankAllBalances` returns the nil slice and the dial
error, after one failed dial and nothing else. -/
theorem dial_failure_returns_immediately_witness :
    (Remote.failing (some unreachable) notFound).dial sampleChain.GetNode.hostGRPCPort
      = some unreachable ∧
    sampleChain.GetBalance (Remote.failing (some unreachable) notFound) sampleCtx "addr1"
      "uatom" Transport.fresh
      = (.returned { i := none } (some unreachable),
         { dials := 1, opens := 0, closes := 0,
           log := [Event.dial "localhost:9090" false] }) ∧
    ((sampleChain.BankAllBalances (Remote.failing (some unreachable) notFound) sampleCtx
        "addr1" Transport.fresh).1 = .returned Slice.nil (some unreachable) ∧
      OnlyFailedDial "localhost:9090" Transport.fresh
        (sampleChain.BankAllBalances (Remote.failing (some unreachable) notFound) sampleCtx
          "addr1" Transport.fresh).2) :=
  ⟨rfl, rfl,
   (dial_failure_returns_immediately sampleChain (Remote.failing (some unreachable) notFound)
      sampleCtx "addr1" "uatom" Slice.nil Transport.fresh unreachable rfl).2.1⟩


/-! ## Successful calls -/

/-- C3 (as amended): for each of the twelve bank queries, when the dial succeeds and the
remote procedure answers a response `res` with a nil error, the query returns a nil
error and the named field of `res` untouched: `res.Balance.Amount` for `GetBalance`
provided the pointer `res.Balance` is set, `res.Balances` for `BankAllBalances`, a
pointer to `res.Metadata` for `BankDenomMetadata` and
`BankQueryDenomMetadataByQueryString`, `res.DenomOwners`, `res.Metadatas`, a pointer to
`res.Params`, `res.SendEnabled`, the pointer `res.Balance` for
`BankQuerySpendableBalance`, pointers to `res.Balances`, `res.Supply` and `res.Amount`
for the spendable balances and the two supply queries. -/
theorem successful_call_returns_named_field (c : CosmosChain) (env : Remote) (ctx : Context)
    (address denom : String) (denoms : Slice String) (t : Transport)
    (hdial : env.dial c.GetNode.hostGRPCPort = none) :
    (∀ res balance, env.Balance ctx { Address := address, Denom := denom } = (some res, none) →
      res.Balance = some balance →
      (c.GetBalance env ctx address denom t).1 = .returned balance.Amount none) ∧
    (∀ res, env.AllBalances ctx { Address := address } = (some res, none) →
      (c.BankAllBalances env ctx address t).1 = .returned res.Balances none) ∧
    (∀ res, env.DenomMetadata ctx { Denom := denom } = (some res, none) →
      (c.BankDenomMetadata env ctx denom t).1 = .returned (some res.Metadata) none) ∧
    (∀ res, env.DenomMetadataByQueryString ctx { Denom := denom } = (some res, none) →
      (c.BankQueryDenomMetadataByQueryString env ctx denom t).1
        = .returned (some res.Metadata) none) ∧
    (∀ res, env.DenomOwners ctx { Denom := denom } = (some res, none) →
      (c.BankQueryDenomOwners env ctx denom t).1 = .returned res.DenomOwners none) ∧
    (∀ res, env.DenomsMetadata ctx {} = (some res, none) →
      (c.BankQueryDenomsMetadata env ctx t).1 = .returned res.Metadatas none) ∧
    (∀ res, env.Params ctx {} = (some res, none) →
      (c.BankQueryParams env ctx t).1 = .returned (some res.Params) none) ∧
    (∀ res, env.SendEnabled ctx { Denoms := denoms } = (some res, none) →
      (c.BankQuerySendEnabled env ctx denoms t).1 = .returned res.SendEnabled none) ∧
    (∀ res, env.SpendableBalanceByDenom ctx { Address := address, Denom := denom }
        = (some res, none) →
      (c.BankQuerySpendableBalance env ctx address denom t).1 = .returned res.Balance none) ∧
    (∀ res, env.SpendableBalances ctx { Address := address } = (some res, none) →
      (c.BankQuerySpendableBalances env ctx address t).1
        = .returned (some res.Balances) none) ∧
    (∀ res, env.TotalSupply ctx {} = (some res, none) →
      (c.BankQueryTotalSupply env ctx address t).1 = .returned (some res.Supply) none) ∧
    (∀ res, env.SupplyOf ctx { Denom := denom } = (some res, none) →
      (c.BankQueryTotalSupplyOf env ctx denom t).1 = .returned (some res.Amount) none) := by
  refine ⟨?_, ?_, ?_, ?_, ?_, ?_, ?_, ?_, ?_, ?_, ?_, ?_⟩
  · intro res balance h hb
    simp [CosmosChain.GetBalance, grpcDial, hdial, withDeferredClose, invoke, Ptr.deref, h, hb]
  · intro res h
    simp [CosmosChain.BankAllBalances, grpcDial, hdial, withDeferredClose, invoke,
      QueryAllBalancesResponse.GetBalances, h]
  · intro res h
    simp [CosmosChain.BankDenomMetadata, grpcDial, hdial, withDeferredClose, invoke,
      Ptr.deref, h]
  · intro res h
    simp [CosmosChain.BankQueryDenomMetadataByQueryString, grpcDial, hdial,
      withDeferredClose, invoke, Ptr.deref, h]
  · intro res h
    simp [CosmosChain.BankQueryDenomOwners, grpcDial, hdial, withDeferredClose, invoke,
      Ptr.deref, h]
  · intro res h
    simp [CosmosChain.BankQueryDenomsMetadata, grpcDial, hdial, withDeferredClose, invoke,
      Ptr.deref, h]
  · intro res h
    simp [CosmosChain.BankQueryParams, grpcDial, hdial, withDeferredClose, invoke,
      Ptr.deref, h]
  · intro res h
    simp [CosmosChain.BankQuerySendEnabled, grpcDial, hdial, withDeferredClose, invoke,
      Ptr.deref, h]
  · intro res h
    simp [CosmosChain.BankQuerySpendableBalance, grpcDial, hdial, withDeferredClose, invoke,
      Ptr.deref, h]
  · intro res h
    simp [CosmosChain.BankQuerySpendableBalances, grpcDial, hdial, withDeferredClose, invoke,
      Ptr.deref, h]
  · intro res h
    simp [CosmosChain.BankQueryTotalSupply, grpcDial, hdial, withDeferredClose, invoke,
      Ptr.deref, h]
  · intro res h
    simp [CosmosChain.BankQueryTotalSupplyOf, grpcDial, hdial, withDeferredClose, invoke,
      Ptr.deref, h]

/-- Instance of C3: against a stub reporting the balance `1000uatom`,
`GetBalance(ctx, "addr1", "uatom")` returns exactly 1000 and a nil error, and
`BankQuerySpendableBalance` returns the pointer to the reported coin. -/
theorem successful_call_returns_named_field_witness :
    Remote.serving.dial sampleChain.GetNode.hostGRPCPort = none ∧
    (sampleChain.GetBalance Remote.serving sampleCtx "addr1" "uatom" Transport.fresh).1
      = .returned { i := some 1000 } none ∧
    (sampleChain.BankQuerySpendableBalance Remote.serving sampleCtx "addr1" "uatom"
      Transport.fresh).1 = .returned (some coin1000) none :=
  ⟨rfl,
   (successful_call_returns_named_field sampleChain Remote.serving sampleCtx "addr1" "uatom"
      Slice.nil Transport.fresh rfl).1 { Balance := some coin1000 } coin1000 rfl rfl,
   (successful_call_returns_named_field sampleChain Remote.serving sampleCtx "addr1" "uatom"
      Slice.nil Transport.fresh rfl).2.2.2.2.2.2.2.2.1 { Balance := some coin1000 } rfl⟩

/-- C3 fails as stated for `GetBalance`: the dial succeeds and the remote `Balance`
procedure answers a response and a nil error, but the `Balance` pointer of the response
is not set, and `GetBalance` panics on `res.Balance.Amount` instead of returning an
amount with a nil error. -/
theorem GetBalance_unset_balance_faults :
    Remote.unsetBalance.dial sampleChain.GetNode.hostGRPCPort = none ∧
    Remote.unsetBalance.Balance sampleCtx { Address := "addr1", Denom := "uatom" }
      = (some { Balance := none }, none) ∧
    (sampleChain.GetBalance Remote.unsetBalance sampleCtx "addr1" "uatom" Transport.fresh).1
      = Outcome.fault ∧
    ¬ ∃ amount : SdkInt,
      (sampleChain.GetBalance Remote.unsetBalance sampleCtx "addr1" "uatom"
        Transport.fresh).1 = .returned amount none := by
  refine ⟨rfl, rfl, rfl, ?_⟩
  rintro ⟨amount, h⟩
  have hf : (sampleChain.GetBalance Remote.unsetBalance sampleCtx "addr1" "uatom"
      Transport.fresh).1 = Outcome.fault := rfl
  rw [hf] at h
  cases h

/-! ## Remote errors -/

/-- C2, the code at the failing input: against a stub whose `Balance` procedure answers
a nil response and the error "not found", `GetBalance(ctx, "addr1", "uatom")` does not
return the zero amount and that error: it panics on `res.Balance` (after which the
deferred close still runs). -/
theorem GetBalance_remote_error_faults :
    (Remote.failing none notFound).Balance sampleCtx { Address := "addr1", Denom := "uatom" }
      = (none, some notFound) ∧
    sampleChain.GetBalance (Remote.failing none notFound) sampleCtx "addr1" "uatom"
      Transport.fresh
      = (Outcome.fault,
         { dials := 1, opens := 1, closes := 1,
           log := [Event.dial "localhost:9090" true,
                   Event.invoke 0
                     (RemoteCall.Balance sampleCtx { Address := "addr1", Denom := "uatom" }),
                   Event.close 0] }) ∧
    sampleChain.GetBalance (Remote.failing none notFound) sampleCtx "addr1" "uatom"
      Transport.fresh
      ≠ (.returned SdkInt.zeroValue (some notFound),
         (sampleChain.GetBalance (Remote.failing none notFound) sampleCtx "addr1" "uatom"
           Transport.fresh).2) := by
  refine ⟨rfl, rfl, ?_⟩
  intro h
  have hf : (sampleChain.GetBalance (Remote.failing none notFound) sampleCtx "addr1" "uatom"
      Transport.fresh).1 = Outcome.fault := rfl
  have h1 := congrArg Prod.fst h
  rw [hf] at h1
  cases h1

/-- C9 (as amended): for every bank query except `BankAllBalances`, when the dial
succeeds and the remote procedure answers a nil response (with whatever error), the
query panics on its access to the response instead of returning the error;
`BankAllBalances` reads the response through the nil-guarded getter and returns the nil
slice together with the error. -/
theorem nil_response_faults_except_AllBalances (c : CosmosChain) (env : Remote)
    (ctx : Context) (address denom : String) (denoms : Slice String) (t : Transport)
    (hdial : env.dial c.GetNode.hostGRPCPort = none) :
    (∀ err, env.Balance ctx { Address := address, Denom := denom } = (none, err) →
      (c.GetBalance env ctx address denom t).1 = .fault) ∧
    (∀ err, env.AllBalances ctx { Address := address } = (none, err) →
      (c.BankAllBalances env ctx address t).1 = .returned Slice.nil err) ∧
    (∀ err, env.DenomMetadata ctx { Denom := denom } = (none, err) →
      (c.BankDenomMetadata env ctx denom t).1 = .fault) ∧
    (∀ err, env.DenomMetadataByQueryString ctx { Denom := denom } = (none, err) →
      (c.BankQueryDenomMetadataByQueryString env ctx denom t).1 = .fault) ∧
    (∀ err, env.DenomOwners ctx { Denom := denom } = (none, err) →
      (c.BankQueryDenomOwners env ctx denom t).1 = .fault) ∧
    (∀ err, env.DenomsMetadata ctx {} = (none, err) →
      (c.BankQueryDenomsMetadata env ctx t).1 = .fault) ∧
    (∀ err, env.Params ctx {} = (none, err) →
      (c.BankQueryParams env ctx t).1 = .fault) ∧
    (∀ err, env.SendEnabled ctx { Denoms := denoms } = (none, err) →
      (c.BankQuerySendEnabled env ctx denoms t).1 = .fault) ∧
    (∀ err, env.SpendableBalanceByDenom ctx { Address := address, Denom := denom }
        = (none, err) →
      (c.BankQuerySpendableBalance env ctx address denom t).1 = .fault) ∧
    (∀ err, env.SpendableBalances ctx { Address := address } = (none, err) →
      (c.BankQuerySpendableBalances env ctx address t).1 = .fault) ∧
    (∀ err, env.TotalSupply ctx {} = (none, err) →
      (c.BankQueryTotalSupply env ctx address t).1 = .fault) ∧
    (∀ err, env.SupplyOf ctx { Denom := denom } = (none, err) →
      (c.BankQueryTotalSupplyOf env ctx denom t).1 = .fault) := by
  refine ⟨?_, ?_, ?_, ?_, ?_, ?_, ?_, ?_, ?_, ?_, ?_, ?_⟩
  · intro err h
    simp [CosmosChain.GetBalance, grpcDial, hdial, withDeferredClose, invoke, Ptr.deref, h]
  · intro err h
    simp [CosmosChain.BankAllBalances, grpcDial, hdial, withDeferredClose, invoke,
      QueryAllBalancesResponse.GetBalances, h]
  · intro err h
    simp [CosmosChain.BankDenomMetadata, grpcDial, hdial, withDeferredClose, invoke,
      Ptr.deref, h]
  · intro err h
    simp [CosmosChain.BankQueryDenomMetadataByQueryString, grpcDial, hdial,
      withDeferredClose, invoke, Ptr.deref, h]
  · intro err h
    simp [CosmosChain.BankQueryDenomOwners, grpcDial, hdial, withDeferredClose, invoke,
      Ptr.deref, h]
  · intro err h
    simp [CosmosChain.BankQueryDenomsMetadata, grpcDial, hdial, withDeferredClose, invoke,
      Ptr.deref, h]
  · intro err h
    simp [CosmosChain.BankQueryParams, grpcDial, hdial, withDeferredClose, invoke,
      Ptr.deref, h]
  · intro err h
    simp [CosmosChain.BankQuerySendEnabled, grpcDial, hdial, withDeferredClose, invoke,
      Ptr.deref, h]
  · intro err h
    simp [CosmosChain.BankQuerySpendableBalance, grpcDial, hdial, withDeferredClose, invoke,
      Ptr.deref, h]
  · intro err h
    simp [CosmosChain.BankQuerySpendableBalances, grpcDial, hdial, withDeferredClose, invoke,
      Ptr.deref, h]
  · intro err h
    simp [CosmosChain.BankQueryTotalSupply, grpcDial, hdial, withDeferredClose, invoke,
      Ptr.deref, h]
  · intro err h
    simp [CosmosChain.BankQueryTotalSupplyOf, grpcDial, hdial, withDeferredClose, invoke,
      Ptr.deref, h]

/-- Instance of C9: against a stub whose procedures answer a nil response and the error
"not found", `BankQueryDenomOwners` panics while `BankAllBalances` returns the nil slice
and that error. -/
theorem nil_response_faults_except_AllBalances_witness :
    (Remote.failing none notFound).dial sampleChain.GetNode.hostGRPCPort = none ∧
    (sampleChain.BankQueryDenomOwners (Remote.failing none notFound) sampleCtx "uatom"
      Transport.fresh).1 = Outcome.fault ∧
    (sampleChain.BankAllBalances (Remote.failing none notFound) sampleCtx "addr1"
      Transport.fresh).1 = .returned Slice.nil (some notFound) :=
  ⟨rfl,
   (nil_response_faults_except_AllBalances sampleChain (Remote.failing none notFound)
      sampleCtx "addr1" "uatom" Slice.nil Transport.fresh rfl).2.2.2.2.1 (some notFound) rfl,
   (nil_response_faults_except_AllBalances sampleChain (Remote.failing none notFound)
      sampleCtx "addr1" "uatom" Slice.nil Transport.fresh rfl).2.1 (some notFound) rfl⟩

/-- C9 fails as stated for `BankAllBalances`: the dial succeeds, the remote
`AllBalances` procedure answers a nil response and the error "not found", and the query
does not panic: it returns the nil slice and that error. -/
theorem BankAllBalances_remote_error_returns_cleanly :
    (Remote.failing none notFound).dial sampleChain.GetNode.hostGRPCPort = none ∧
    (Remote.failing none notFound).AllBalances sampleCtx { Address := "addr1" }
      = (none, some notFound) ∧
    (sampleChain.BankAllBalances (Remote.failing none notFound) sampleCtx "addr1"
      Transport.fresh).1 = .returned Slice.nil (some notFound) ∧
    (sampleChain.BankAllBalances (Remote.failing none notFound) sampleCtx "addr1"
      Transport.fresh).1 ≠ Outcome.fault := by
  refine ⟨rfl, rfl, rfl, ?_⟩
  intro h
  have hr : (sampleChain.BankAllBalances (Remote.failing none notFound) sampleCtx "addr1"
      Transport.fresh).1 = .returned Slice.nil (some notFound) := rfl
  rw [hr] at h
  cases h


/-! ## Requests -/

/-- C5: for each of the twelve bank queries and all caller arguments, when the dial
succeeds the effects of the call are the dial, one remote call and the close, and the
request handed to the remote procedure holds the caller's strings verbatim in the named
fields and the zero value everywhere else: `Address` and `Denom` for `GetBalance` and
`BankQuerySpendableBalance`, `Address` for `BankAllBalances` and
`BankQuerySpendableBalances`, `Denom` for the two metadata queries and the owners query,
`Denoms` for `BankQuerySendEnabled`, and `Denom` set to the single string argument for
`BankQueryTotalSupplyOf`. -/
theorem request_carries_arguments_verbatim (c : CosmosChain) (env : Remote) (ctx : Context)
    (address denom : String) (denoms : Slice String) (t : Transport)
    (hdial : env.dial c.GetNode.hostGRPCPort = none) :
    (c.GetBalance env ctx address denom t).2.log = t.log ++
      [Event.dial c.GetNode.hostGRPCPort true,
       Event.invoke t.opens (.Balance ctx { Address := address, Denom := denom }),
       Event.close t.opens] ∧
    (c.BankAllBalances env ctx address t).2.log = t.log ++
      [Event.dial c.GetNode.hostGRPCPort true,
       Event.invoke t.opens
         (.AllBalances ctx { Address := address, Pagination := none, ResolveDenom := false }),
       Event.close t.opens] ∧
    (c.BankDenomMetadata env ctx denom t).2.log = t.log ++
      [Event.dial c.GetNode.hostGRPCPort true,
       Event.invoke t.opens (.DenomMetadata ctx { Denom := denom }),
       Event.close t.opens] ∧
    (c.BankQueryDenomMetadataByQueryString env ctx denom t).2.log = t.log ++
      [Event.dial c.GetNode.hostGRPCPort true,
       Event.invoke t.opens (.DenomMetadataByQueryString ctx { Denom := denom }),
       Event.close t.opens] ∧
    (c.BankQueryDenomOwners env ctx denom t).2.log = t.log ++
      [Event.dial c.GetNode.hostGRPCPort true,
       Event.invoke t.opens (.DenomOwners ctx { Denom := denom, Pagination := none }),
       Event.close t.opens] ∧
    (c.BankQueryDenomsMetadata env ctx t).2.log = t.log ++
      [Event.dial c.GetNode.hostGRPCPort true,
       Event.invoke t.opens (.DenomsMetadata ctx { Pagination := none }),
       Event.close t.opens] ∧
    (c.BankQueryParams env ctx t).2.log = t.log ++
      [Event.dial c.GetNode.hostGRPCPort true,
       Event.invoke t.opens (.Params ctx {}),
       Event.close t.opens] ∧
    (c.BankQuerySendEnabled env ctx denoms t).2.log = t.log ++
      [Event.dial c.GetNode.hostGRPCPort true,
       Event.invoke t.opens (.SendEnabled ctx { Denoms := denoms, Pagination := none }),
       Event.close t.opens] ∧
    (c.BankQuerySpendableBalance env ctx address denom t).2.log = t.log ++
      [Event.dial c.GetNode.hostGRPCPort true,
       Event.invoke t.opens
         (.SpendableBalanceByDenom ctx { Address := address, Denom := denom }),
       Event.close t.opens] ∧
    (c.BankQuerySpendableBalances env ctx address t).2.log = t.log ++
      [Event.dial c.GetNode.hostGRPCPort true,
       Event.invoke t.opens (.SpendableBalances ctx { Address := address, Pagination := none }),
       Event.close t.opens] ∧
    (c.BankQueryTotalSupply env ctx address t).2.log = t.log ++
      [Event.dial c.GetNode.hostGRPCPort true,
       Event.invoke t.opens (.TotalSupply ctx { Pagination := none }),
       Event.close t.opens] ∧
    (c.BankQueryTotalSupplyOf env ctx denom t).2.log = t.log ++
      [Event.dial c.GetNode.hostGRPCPort true,
       Event.invoke t.opens (.SupplyOf ctx { Denom := denom }),
       Event.close t.opens] := by
  simp [CosmosChain.GetBalance, CosmosChain.BankAllBalances,
    CosmosChain.BankDenomMetadata, CosmosChain.BankQueryDenomMetadataByQueryString,
    CosmosChain.BankQueryDenomOwners, CosmosChain.BankQueryDenomsMetadata,
    CosmosChain.BankQueryParams, CosmosChain.BankQuerySendEnabled,
    CosmosChain.BankQuerySpendableBalance, CosmosChain.BankQuerySpendableBalances,
    CosmosChain.BankQueryTotalSupply, CosmosChain.BankQueryTotalSupplyOf,
    grpcDial, hdial, withDeferredClose, invoke, ClientConn.Close]

/-- Instance of C5: strings with blanks and capitals reach the remote procedure as they
are, and the denoms of `BankQuerySendEnabled` keep their order. -/
theorem request_carries_arguments_verbatim_witness :
    Remote.serving.dial sampleChain.GetNode.hostGRPCPort = none ∧
    remoteCalls (sampleChain.GetBalance Remote.serving sampleCtx " Addr1 " "UATOM "
      Transport.fresh).2.log
      = [RemoteCall.Balance sampleCtx { Address := " Addr1 ", Denom := "UATOM " }] ∧
    remoteCalls (sampleChain.BankQuerySendEnabled Remote.serving sampleCtx
      (Slice.mk ["b", "a", "b"]) Transport.fresh).2.log
      = [RemoteCall.SendEnabled sampleCtx
          { Denoms := Slice.mk ["b", "a", "b"], Pagination := none }] :=
  ⟨rfl,
   congrArg remoteCalls
     (request_carries_arguments_verbatim sampleChain Remote.serving sampleCtx " Addr1 "
       "UATOM " (Slice.mk ["b", "a", "b"]) Transport.fresh rfl).1,
   congrArg remoteCalls
     (request_carries_arguments_verbatim sampleChain Remote.serving sampleCtx " Addr1 "
       "UATOM " (Slice.mk ["b", "a", "b"]) Transport.fresh rfl).2.2.2.2.2.2.2.1⟩

/-! ## Transaction submission -/

/-- C6: for every key name, slice of addresses (nil and empty included), amount and
denom, `BankMultiSend` calls `ExecTx` exactly once, with signer `keyName` and the command
`["bank", "multi-send", keyName] ++ addresses ++ [amount.String() ++ denom]`, and returns
exactly the error of `ExecTx`.  The command has `len(addresses) + 4` elements, the
amount-with-denom string is its last element, and the amount is printed in decimal when
it holds an integer. -/
theorem BankMultiSend_command (exec : ExecStub) (tn : ChainNode) (ctx : Context)
    (keyName : String) (addresses : Slice String) (amount : SdkInt) (denom : String)
    (calls : List ExecCall) :
    tn.BankMultiSend exec ctx keyName addresses amount denom calls
      = ((exec tn ctx keyName
            (["bank", "multi-send", keyName] ++ addresses.toList
              ++ [amount.String ++ denom])).2,
         calls ++ [{ ctx := ctx, keyName := keyName,
                     command := ["bank", "multi-send", keyName] ++ addresses.toList
                       ++ [amount.String ++ denom] }]) ∧
    (["bank", "multi-send", keyName] ++ addresses.toList
      ++ [amount.String ++ denom]).length = addresses.len + 4 ∧
    (["bank", "multi-send", keyName] ++ addresses.toList
      ++ [amount.String ++ denom]).getLast? = some (amount.String ++ denom) ∧
    (∀ z : Int, amount.i = some z → amount.String = decimal z) := by
  refine ⟨?_, ?_, ?_, ?_⟩
  · simp [ChainNode.BankMultiSend, ChainNode.ExecTx, Slice.append, Slice.toList]
  · simp [Slice.len]
  · exact List.getLast?_concat _
  · intro z hz
    simp [SdkInt.String, hz]

/-- Instance of C6: two addresses and the amount 1000 of `uatom` give the command
`bank multi-send alice a b 1000uatom` and the error of `ExecTx`; a nil address slice gives
the four-element command `bank multi-send alice 1000uatom`. -/
theorem BankMultiSend_command_witness :
    sampleChain.GetNode.BankMultiSend (fun _ _ _ _ => ("HASH", some notFound)) sampleCtx
      "alice" (Slice.mk ["a", "b"]) { i := some 1000 } "uatom" []
      = (some notFound,
         [{ ctx := sampleCtx, keyName := "alice",
            command := ["bank", "multi-send", "alice", "a", "b", "1000uatom"] }]) ∧
    sampleChain.GetNode.BankMultiSend (fun _ _ _ _ => ("HASH", none)) sampleCtx
      "alice" Slice.nil { i := some 1000 } "uatom" []
      = (none,
         [{ ctx := sampleCtx, keyName := "alice",
            command := ["bank", "multi-send", "alice", "1000uatom"] }]) :=
  ⟨(BankMultiSend_command (fun _ _ _ _ => ("HASH", some notFound)) sampleChain.GetNode
      sampleCtx "alice" (Slice.mk ["a", "b"]) { i := some 1000 } "uatom" []).1,
   (BankMultiSend_command (fun _ _ _ _ => ("HASH", none)) sampleChain.GetNode
      sampleCtx "alice" Slice.nil { i := some 1000 } "uatom" []).1⟩

/-- C7: for every key name and wallet amount, `BankSend` calls `ExecTx` exactly once,
with signer `keyName` and the five-element command
`["bank", "send", keyName, amount.Address, amount.Amount.String() ++ amount.Denom]`, and
returns exactly the error of `ExecTx`, dropping the transaction hash.  The amount is
printed in decimal when it holds an integer. -/
theorem BankSend_command (exec : ExecStub) (tn : ChainNode) (ctx : Context)
    (keyName : String) (amount : WalletAmount) (calls : List ExecCall) :
    tn.BankSend exec ctx keyName amount calls
      = ((exec tn ctx keyName
            ["bank", "send", keyName, amount.Address,
             amount.Amount.String ++ amount.Denom]).2,
         calls ++ [{ ctx := ctx, keyName := keyName,
                     command := ["bank", "send", keyName, amount.Address,
                       amount.Amount.String ++ amount.Denom] }]) ∧
    ["bank", "send", keyName, amount.Address,
      amount.Amount.String ++ amount.Denom].length = 5 ∧
    (∀ z : Int, amount.Amount.i = some z → amount.Amount.String = decimal z) := by
  refine ⟨rfl, rfl, ?_⟩
  intro z hz
  simp [SdkInt.String, hz]

/-- Instance of C7: sending 1000 of `uatom` from key `alice` to `addr1` gives the command
`bank send alice addr1 1000uatom`; the hash is dropped and the error handed back. -/
theorem BankSend_command_witness :
    sampleChain.GetNode.BankSend (fun _ _ _ _ => ("HASH", some notFound)) sampleCtx "alice"
      { Address := "addr1", Denom := "uatom", Amount := { i := some 1000 } } []
      = (some notFound,
         [{ ctx := sampleCtx, keyName := "alice",
            command := ["bank", "send", "alice", "addr1", "1000uatom"] }]) :=
  (BankSend_command (fun _ _ _ _ => ("HASH", some notFound)) sampleChain.GetNode sampleCtx
    "alice" { Address := "addr1", Denom := "uatom", Amount := { i := some 1000 } } []).1

/-! ## Alias and unused argument -/

/-- C8: `BankGetBalance` is an alias for `GetBalance`: for every chain, stub, context,
address, denom and transport state both produce the same outcome (amount and error, or
panic) and the same transport state, hence the same sequence of effects. -/
theorem BankGetBalance_eq_GetBalance (c : CosmosChain) (env : Remote) (ctx : Context)
    (address denom : String) (t : Transport) :
    c.BankGetBalance env ctx address denom t = c.GetBalance env ctx address denom t := by
  rfl

/-- C10: `BankQueryTotalSupply` does not depend on its address argument: for any two
addresses the outcome and the transport state after the call are the same, and the remote
calls made are the earlier ones followed, when the dial succeeds, by `TotalSupply` with
the empty request. -/
theorem BankQueryTotalSupply_ignores_address (c : CosmosChain) (env : Remote)
    (ctx : Context) (a1 a2 : String) (t : Transport) :
    c.BankQueryTotalSupply env ctx a1 t = c.BankQueryTotalSupply env ctx a2 t ∧
    remoteCalls (c.BankQueryTotalSupply env ctx a1 t).2.log
      = remoteCalls t.log ++
        (if env.dial c.GetNode.hostGRPCPort = none
          then [RemoteCall.TotalSupply ctx { Pagination := none }] else []) := by
  refine ⟨rfl, ?_⟩
  cases hdial : env.dial c.GetNode.hostGRPCPort with
  | none =>
    simp [CosmosChain.BankQueryTotalSupply, grpcDial, hdial, withDeferredClose, invoke,
      ClientConn.Close, remoteCalls_append, remoteCalls]
  | some e =>
    simp [CosmosChain.BankQueryTotalSupply, grpcDial, hdial, remoteCalls_append, remoteCalls]

end Cosmos
